import Mathlib

/-
Verification development for the CDRNNBayes variational core
(src/cdr/cdrnnbayes.py).

Numbers are modelled as rationals.  Transcendental operations that the
source delegates to the numeric backend (square root, the softplus
constraint, the SinhArcsinh moments) are carried as explicit function
fields of the model state, so every definition stays executable; the
claims under study never depend on their analytic values.  Sampling is
modelled with one explicit standard-normal draw argument; the claims
only concern the MAP/mean and summary paths.
-/

namespace CDR

/-- A constant-fill tensor: all seeds in the source are `tf.zeros`,
`tf.ones * c`, or scalar constants, so a shape plus a single fill value
is a faithful representation of every tensor this file constructs. -/
structure Tensor where
  shape : List Nat
  fill : ℚ
  deriving DecidableEq

/-- The tensor `tf.zeros shape`. -/
def Tensor.zeros (shape : List Nat) : Tensor := { shape := shape, fill := 0 }

/-- The tensor `tf.ones shape`. -/
def Tensor.ones (shape : List Nat) : Tensor := { shape := shape, fill := 1 }

/-- Elementwise multiplication of a tensor by a scalar. -/
def Tensor.smul (t : Tensor) (c : ℚ) : Tensor := { shape := t.shape, fill := t.fill * c }

/-- Elementwise application of a scalar function. -/
def Tensor.map (f : ℚ → ℚ) (t : Tensor) : Tensor := { shape := t.shape, fill := f t.fill }

/-- Elementwise addition of a scalar. -/
def Tensor.addScalar (t : Tensor) (c : ℚ) : Tensor := { shape := t.shape, fill := t.fill + c }

/-- A Normal distribution over a tensor, `Normal(loc, scale)`. -/
structure NormalTD where
  loc : Tensor
  scale : Tensor
  deriving DecidableEq

/-- `dist.mean()` of a Normal is its location tensor. -/
def NormalTD.mean (d : NormalTD) : Tensor := d.loc

/-- `dist.sample()` modelled with an explicit standard-normal draw. -/
def NormalTD.sample (d : NormalTD) (noise : ℚ) : Tensor :=
  { shape := d.loc.shape, fill := d.loc.fill + d.scale.fill * noise }

/-- Python `list.index`: position of the first occurrence, `ValueError`
when absent (modelled as `Except.error`). -/
def pyIndex : List String → String → Except String Nat
  | [], x => Except.error (x ++ " is not in list")
  | a :: rest, x => if a = x then Except.ok 0 else (pyIndex rest x).map (· + 1)

/-- Python list subscription: `IndexError` when out of range. -/
def pyGet (xs : List Nat) (i : Nat) : Except String Nat :=
  match xs.get? i with
  | some v => Except.ok v
  | none => Except.error "list index out of range"

/-- A prior-sd configuration value: a numeric scale or one of the
string heuristics accepted by the builders. -/
inductive PriorSpec where
  | num (v : ℚ)
  | xavier
  | glorot
  | he
  deriving DecidableEq

/-- The slice of `CDRNNBayes` state that the parameter builders read.
`sqrtFn` stands for `math.sqrt`; `constraint_fn` / `constraint_fn_inv`
are the configured positivity constraint and its inverse. -/
structure ModelState where
  rangf : List String
  /-- Modelled from the spec: `rangf_n_levels` is set up by the base
  class (`cdrbase.py`, not present under src/); per the spec's
  GroupingFactorSpec it holds, for each grouping factor in `rangf`, the
  number of observed distinct levels. -/
  rangf_n_levels : List Nat
  impulse_names : List String
  n_units_rnn : List Nat
  n_units_hidden_state : Nat
  n_units_t_delta_embedding : Nat
  constraint_fn : ℚ → ℚ
  constraint_fn_inv : ℚ → ℚ
  epsilon : ℚ
  posterior_to_prior_sd_ratio : ℚ
  ranef_to_fixef_prior_sd_ratio : ℚ
  intercept_init : ℚ
  intercept_prior_sd : ℚ
  weight_prior_sd : PriorSpec
  bias_prior_sd : PriorSpec
  declare_priors_fixef : Bool
  declare_priors_ranef : Bool
  sqrtFn : ℚ → ℚ

/-- `self.intercept_posterior_sd_init` (cdrnnbayes.py line 76). -/
def intercept_posterior_sd_init (s : ModelState) : ℚ :=
  s.intercept_prior_sd * s.posterior_to_prior_sd_ratio

/-- `self.intercept_ranef_prior_sd_tf` (cdrnnbayes.py line 77). -/
def intercept_ranef_prior_sd (s : ModelState) : ℚ :=
  s.intercept_prior_sd * s.ranef_to_fixef_prior_sd_ratio

/-- `self.intercept_ranef_posterior_sd_init` (cdrnnbayes.py line 78). -/
def intercept_ranef_posterior_sd_init (s : ModelState) : ℚ :=
  intercept_posterior_sd_init s * s.ranef_to_fixef_prior_sd_ratio

/-- Resolution of a prior-sd configuration at a given fan-in, as done
at the top of each builder (numeric passes through; `xavier`/`glorot`
give `sqrt(2/(units+1))`, `he` gives `sqrt(2/units)`). -/
def resolveSD (s : ModelState) (spec : PriorSpec) (units : Nat) : ℚ :=
  match spec with
  | PriorSpec.num v => v
  | PriorSpec.xavier => s.sqrtFn (2 / ((units : ℚ) + 1))
  | PriorSpec.glorot => s.sqrtFn (2 / ((units : ℚ) + 1))
  | PriorSpec.he => s.sqrtFn (2 / (units : ℚ))

/-- What a parameter builder returns: the posterior variables at their
construction-time (seed) values, the posterior distribution, the
mode-switched value node (`tf.cond(use_MAP_mode, mean, sample)`), the
summary node, and the declared prior distribution if any. -/
structure LatentParamResult where
  qLoc : Tensor
  qScaleRaw : Tensor
  qDist : NormalTD
  value : Bool → ℚ → Tensor
  summary : Bool → Tensor
  prior : Option NormalTD

/-- `initialize_intercept` (cdrnnbayes.py lines 124-191). -/
def init_intercept (s : ModelState) (ran_gf : Option String) :
    Except String LatentParamResult :=
  match ran_gf with
  | none =>
    let loc : Tensor := { shape := [], fill := s.intercept_init }
    let scaleRaw : Tensor := { shape := [], fill := s.constraint_fn_inv (intercept_posterior_sd_init s) }
    let q : NormalTD := { loc := loc, scale := (Tensor.map s.constraint_fn scaleRaw).addScalar s.epsilon }
    Except.ok
      { qLoc := loc
        qScaleRaw := scaleRaw
        qDist := q
        value := fun m noise => if m then q.mean else q.sample noise
        summary := fun _ => q.mean
        prior :=
          if s.declare_priors_fixef then
            some { loc := { shape := [], fill := s.intercept_init },
                   scale := { shape := [], fill := s.intercept_prior_sd } }
          else none }
  | some gf =>
    match pyIndex s.rangf gf with
    | Except.error e => Except.error e
    | Except.ok idx =>
      match pyGet s.rangf_n_levels idx with
      | Except.error e => Except.error e
      | Except.ok nl =>
        let rangfNLevels := nl - 1
        let loc : Tensor := Tensor.zeros [rangfNLevels]
        let scaleRaw : Tensor :=
          (Tensor.ones [rangfNLevels]).smul
            (s.constraint_fn_inv (intercept_ranef_posterior_sd_init s * s.ranef_to_fixef_prior_sd_ratio))
        let q : NormalTD := { loc := loc, scale := (Tensor.map s.constraint_fn scaleRaw).addScalar s.epsilon }
        Except.ok
          { qLoc := loc
            qScaleRaw := scaleRaw
            qDist := q
            value := fun m noise => if m then q.mean else q.sample noise
            summary := fun _ => q.mean
            prior :=
              if s.declare_priors_ranef then
                some { loc := { shape := [], fill := 0 },
                       scale := { shape := [], fill := s.intercept_prior_sd * s.ranef_to_fixef_prior_sd_ratio } }
              else none }

/-- `initialize_coefficient` (cdrnnbayes.py lines 193-272; the unused
`coef_ids` argument is omitted). -/
def init_coefficient (s : ModelState) (ran_gf : Option String) :
    Except String LatentParamResult :=
  let units := s.impulse_names.length + 1
  let coefficient_sd_prior := resolveSD s s.weight_prior_sd units
  let coefficient_sd_posterior := coefficient_sd_prior * s.posterior_to_prior_sd_ratio
  match ran_gf with
  | none =>
    let loc : Tensor := Tensor.zeros [1, units]
    let scaleRaw : Tensor := (Tensor.ones [1, units]).smul (s.constraint_fn_inv coefficient_sd_posterior)
    let q : NormalTD := { loc := loc, scale := (Tensor.map s.constraint_fn scaleRaw).addScalar s.epsilon }
    Except.ok
      { qLoc := loc
        qScaleRaw := scaleRaw
        qDist := q
        value := fun m noise => if m then q.mean else q.sample noise
        summary := fun _ => q.mean
        prior :=
          if s.declare_priors_fixef then
            some { loc := { shape := [], fill := 0 },
                   scale := { shape := [], fill := coefficient_sd_prior } }
          else none }
  | some gf =>
    match pyIndex s.rangf gf with
    | Except.error e => Except.error e
    | Except.ok idx =>
      match pyGet s.rangf_n_levels idx with
      | Except.error e => Except.error e
      | Except.ok nl =>
        let rangfNLevels := nl - 1
        let loc : Tensor := Tensor.zeros [rangfNLevels, units]
        let scaleRaw : Tensor :=
          (Tensor.ones [rangfNLevels, units]).smul
            (s.constraint_fn_inv (coefficient_sd_posterior * s.ranef_to_fixef_prior_sd_ratio))
        let q : NormalTD := { loc := loc, scale := (Tensor.map s.constraint_fn scaleRaw).addScalar s.epsilon }
        Except.ok
          { qLoc := loc
            qScaleRaw := scaleRaw
            qDist := q
            value := fun m noise => if m then q.mean else q.sample noise
            summary := fun _ => q.mean
            prior :=
              if s.declare_priors_ranef then
                some { loc := { shape := [], fill := 0 },
                       scale := { shape := [], fill := coefficient_sd_prior * s.ranef_to_fixef_prior_sd_ratio } }
              else none }

/-- `initialize_rnn_h` (cdrnnbayes.py lines 335-414). -/
def init_rnn_h (s : ModelState) (l : Nat) (ran_gf : Option String) :
    Except String LatentParamResult :=
  match pyGet s.n_units_rnn l with
  | Except.error e => Except.error e
  | Except.ok units =>
    let rnn_h_sd_prior := resolveSD s s.bias_prior_sd units
    let rnn_h_sd_posterior := rnn_h_sd_prior * s.posterior_to_prior_sd_ratio
    match ran_gf with
    | none =>
      let loc : Tensor := Tensor.zeros [1, units]
      let scaleRaw : Tensor := (Tensor.ones [1, units]).smul (s.constraint_fn_inv rnn_h_sd_posterior)
      let q : NormalTD := { loc := loc, scale := (Tensor.map s.constraint_fn scaleRaw).addScalar s.epsilon }
      Except.ok
        { qLoc := loc
          qScaleRaw := scaleRaw
          qDist := q
          value := fun m noise => if m then q.mean else q.sample noise
          summary := fun _ => q.mean
          prior :=
            if s.declare_priors_fixef then
              some { loc := { shape := [], fill := 0 },
                     scale := { shape := [], fill := rnn_h_sd_prior } }
            else none }
    | some gf =>
      match pyIndex s.rangf gf with
      | Except.error e => Except.error e
      | Except.ok idx =>
        match pyGet s.rangf_n_levels idx with
        | Except.error e => Except.error e
        | Except.ok nl =>
          let rangfNLevels := nl - 1
          let loc : Tensor := Tensor.zeros [rangfNLevels, units]
          let scaleRaw : Tensor :=
            (Tensor.ones [rangfNLevels, units]).smul
              (s.constraint_fn_inv (rnn_h_sd_posterior * s.ranef_to_fixef_prior_sd_ratio))
          let q : NormalTD := { loc := loc, scale := (Tensor.map s.constraint_fn scaleRaw).addScalar s.epsilon }
          Except.ok
            { qLoc := loc
              qScaleRaw := scaleRaw
              qDist := q
              value := fun m noise => if m then q.mean else q.sample noise
              summary := fun _ => q.mean
              prior :=
                if s.declare_priors_ranef then
                  some { loc := { shape := [], fill := 0 },
                         scale := { shape := [], fill := rnn_h_sd_prior * s.ranef_to_fixef_prior_sd_ratio } }
                else none }

/-- `initialize_rnn_c` (cdrnnbayes.py lines 416-495). -/
def init_rnn_c (s : ModelState) (l : Nat) (ran_gf : Option String) :
    Except String LatentParamResult :=
  match pyGet s.n_units_rnn l with
  | Except.error e => Except.error e
  | Except.ok units =>
    let rnn_c_sd_prior := resolveSD s s.bias_prior_sd units
    let rnn_c_sd_posterior := rnn_c_sd_prior * s.posterior_to_prior_sd_ratio
    match ran_gf with
    | none =>
      let loc : Tensor := Tensor.zeros [1, units]
      let scaleRaw : Tensor := (Tensor.ones [1, units]).smul (s.constraint_fn_inv rnn_c_sd_posterior)
      let q : NormalTD := { loc := loc, scale := (Tensor.map s.constraint_fn scaleRaw).addScalar s.epsilon }
      Except.ok
        { qLoc := loc
          qScaleRaw := scaleRaw
          qDist := q
          value := fun m noise => if m then q.mean else q.sample noise
          summary := fun _ => q.mean
          prior :=
            if s.declare_priors_fixef then
              some { loc := { shape := [], fill := 0 },
                     scale := { shape := [], fill := rnn_c_sd_prior } }
            else none }
    | some gf =>
      match pyIndex s.rangf gf with
      | Except.error e => Except.error e
      | Except.ok idx =>
        match pyGet s.rangf_n_levels idx with
        | Except.error e => Except.error e
        | Except.ok nl =>
          let rangfNLevels := nl - 1
          let loc : Tensor := Tensor.zeros [rangfNLevels, units]
          let scaleRaw : Tensor :=
            (Tensor.ones [rangfNLevels, units]).smul
              (s.constraint_fn_inv (rnn_c_sd_posterior * s.ranef_to_fixef_prior_sd_ratio))
          let q : NormalTD := { loc := loc, scale := (Tensor.map s.constraint_fn scaleRaw).addScalar s.epsilon }
          Except.ok
            { qLoc := loc
              qScaleRaw := scaleRaw
              qDist := q
              value := fun m noise => if m then q.mean else q.sample noise
              summary := fun _ => q.mean
              prior :=
                if s.declare_priors_ranef then
                  some { loc := { shape := [], fill := 0 },
                         scale := { shape := [], fill := rnn_c_sd_prior * s.ranef_to_fixef_prior_sd_ratio } }
                else none }

/-- `initialize_h_bias` (cdrnnbayes.py lines 497-576).  Note the
random-effect prior scale is written `h_bias_sd_prior * h_bias_sd_prior`
in the source (line 571), reproduced here verbatim. -/
def init_h_bias (s : ModelState) (ran_gf : Option String) :
    Except String LatentParamResult :=
  let units := s.n_units_hidden_state
  let h_bias_sd_prior := resolveSD s s.bias_prior_sd units
  let h_bias_sd_posterior := h_bias_sd_prior * s.posterior_to_prior_sd_ratio
  match ran_gf with
  | none =>
    let loc : Tensor := Tensor.zeros [1, 1, units]
    let scaleRaw : Tensor := (Tensor.ones [1, 1, units]).smul (s.constraint_fn_inv h_bias_sd_posterior)
    let q : NormalTD := { loc := loc, scale := (Tensor.map s.constraint_fn scaleRaw).addScalar s.epsilon }
    Except.ok
      { qLoc := loc
        qScaleRaw := scaleRaw
        qDist := q
        value := fun m noise => if m then q.mean else q.sample noise
        summary := fun _ => q.mean
        prior :=
          if s.declare_priors_fixef then
            some { loc := { shape := [], fill := 0 },
                   scale := { shape := [], fill := h_bias_sd_prior } }
          else none }
  | some gf =>
    match pyIndex s.rangf gf with
    | Except.error e => Except.error e
    | Except.ok idx =>
      match pyGet s.rangf_n_levels idx with
      | Except.error e => Except.error e
      | Except.ok nl =>
        let rangfNLevels := nl - 1
        let loc : Tensor := Tensor.zeros [rangfNLevels, units]
        let scaleRaw : Tensor :=
          (Tensor.ones [rangfNLevels, units]).smul
            (s.constraint_fn_inv (h_bias_sd_posterior * s.ranef_to_fixef_prior_sd_ratio))
        let q : NormalTD := { loc := loc, scale := (Tensor.map s.constraint_fn scaleRaw).addScalar s.epsilon }
        Except.ok
          { qLoc := loc
            qScaleRaw := scaleRaw
            qDist := q
            value := fun m noise => if m then q.mean else q.sample noise
            summary := fun _ => q.mean
            prior :=
              if s.declare_priors_ranef then
                some { loc := { shape := [], fill := 0 },
                       scale := { shape := [], fill := h_bias_sd_prior * h_bias_sd_prior } }
              else none }

/-- `initialize_irf_l1_biases` (cdrnnbayes.py lines 578-731), returning
the W-bias and b-bias results.  The fixed-effect scale variables are
seeded with `tf.zeros(...) * constraint_fn_inv(...)` in the source
(lines 601 and 675), reproduced here via `Tensor.zeros ... |>.smul`. -/
def init_irf_l1_biases (s : ModelState) (ran_gf : Option String) :
    Except String (LatentParamResult × LatentParamResult) :=
  let units := s.n_units_t_delta_embedding
  let irf_l1_W_bias_sd_prior := resolveSD s s.weight_prior_sd units
  let irf_l1_W_bias_sd_posterior := irf_l1_W_bias_sd_prior * s.posterior_to_prior_sd_ratio
  let irf_l1_b_bias_sd_prior := resolveSD s s.bias_prior_sd units
  let irf_l1_b_bias_sd_posterior := irf_l1_b_bias_sd_prior * s.posterior_to_prior_sd_ratio
  match ran_gf with
  | none =>
    let wLoc : Tensor := Tensor.zeros [1, 1, units]
    let wScaleRaw : Tensor := (Tensor.zeros [1, 1, units]).smul (s.constraint_fn_inv irf_l1_W_bias_sd_posterior)
    let wQ : NormalTD := { loc := wLoc, scale := (Tensor.map s.constraint_fn wScaleRaw).addScalar s.epsilon }
    let bLoc : Tensor := Tensor.zeros [1, 1, units]
    let bScaleRaw : Tensor := (Tensor.zeros [1, 1, units]).smul (s.constraint_fn_inv irf_l1_b_bias_sd_posterior)
    let bQ : NormalTD := { loc := bLoc, scale := (Tensor.map s.constraint_fn bScaleRaw).addScalar s.epsilon }
    Except.ok
      ({ qLoc := wLoc
         qScaleRaw := wScaleRaw
         qDist := wQ
         value := fun m noise => if m then wQ.mean else wQ.sample noise
         summary := fun _ => wQ.mean
         prior :=
           if s.declare_priors_fixef then
             some { loc := { shape := [], fill := 0 },
                    scale := { shape := [], fill := irf_l1_W_bias_sd_prior } }
           else none },
       { qLoc := bLoc
         qScaleRaw := bScaleRaw
         qDist := bQ
         value := fun m noise => if m then bQ.mean else bQ.sample noise
         summary := fun _ => bQ.mean
         prior :=
           if s.declare_priors_fixef then
             some { loc := { shape := [], fill := 0 },
                    scale := { shape := [], fill := irf_l1_b_bias_sd_prior } }
           else none })
  | some gf =>
    match pyIndex s.rangf gf with
    | Except.error e => Except.error e
    | Except.ok idx =>
      match pyGet s.rangf_n_levels idx with
      | Except.error e => Except.error e
      | Except.ok nl =>
        let rangfNLevels := nl - 1
        let wLoc : Tensor := Tensor.zeros [rangfNLevels, units]
        let wScaleRaw : Tensor :=
          (Tensor.ones [rangfNLevels, units]).smul
            (s.constraint_fn_inv (irf_l1_W_bias_sd_posterior * s.ranef_to_fixef_prior_sd_ratio))
        let wQ : NormalTD := { loc := wLoc, scale := (Tensor.map s.constraint_fn wScaleRaw).addScalar s.epsilon }
        let bLoc : Tensor := Tensor.zeros [rangfNLevels, units]
        let bScaleRaw : Tensor :=
          (Tensor.ones [rangfNLevels, units]).smul
            (s.constraint_fn_inv (irf_l1_b_bias_sd_posterior * s.ranef_to_fixef_prior_sd_ratio))
        let bQ : NormalTD := { loc := bLoc, scale := (Tensor.map s.constraint_fn bScaleRaw).addScalar s.epsilon }
        Except.ok
          ({ qLoc := wLoc
             qScaleRaw := wScaleRaw
             qDist := wQ
             value := fun m noise => if m then wQ.mean else wQ.sample noise
             summary := fun _ => wQ.mean
             prior :=
               if s.declare_priors_ranef then
                 some { loc := { shape := [], fill := 0 },
                        scale := { shape := [], fill := irf_l1_W_bias_sd_prior * s.ranef_to_fixef_prior_sd_ratio } }
               else none },
           { qLoc := bLoc
             qScaleRaw := bScaleRaw
             qDist := bQ
             value := fun m noise => if m then bQ.mean else bQ.sample noise
             summary := fun _ => bQ.mean
             prior :=
               if s.declare_priors_ranef then
                 some { loc := { shape := [], fill := 0 },
                        scale := { shape := [], fill := irf_l1_b_bias_sd_prior * s.ranef_to_fixef_prior_sd_ratio } }
               else none })

/-- A scalar Normal distribution, `Normal(loc, scale)`. -/
structure NormalQ where
  loc : ℚ
  scale : ℚ
  deriving DecidableEq

/-- `dist.mean()` of a scalar Normal. -/
def NormalQ.mean (d : NormalQ) : ℚ := d.loc

/-- `dist.sample()` of a scalar Normal, with an explicit draw. -/
def NormalQ.sample (d : NormalQ) (noise : ℚ) : ℚ := d.loc + d.scale * noise

/-- The slice of state read by `_initialize_output_model` and
`run_predict_op`.  `out` is the network's output location (`self.out`
as it stands on entry); `saMean`/`saSample` stand for the mean and
sampling of a `SinhArcsinh(loc, scale, skewness, tailweight)`
distribution, carried abstractly because they are transcendental. -/
structure OutState where
  y_sd_trainable : Bool
  asymmetric_error : Bool
  standardize_response : Bool
  y_sd_init : ℚ
  y_sd_init_unconstrained : ℚ
  y_sd_prior_sd : ℚ
  y_skewness_prior_sd : ℚ
  y_tailweight_prior_sd : ℚ
  posterior_to_prior_sd_ratio : ℚ
  y_sd_delta : ℚ
  y_sd_delta_ema : ℚ
  y_skewness_delta : ℚ
  y_skewness_delta_ema : ℚ
  y_tailweight_delta : ℚ
  y_tailweight_delta_ema : ℚ
  out : ℚ
  y_train_sd : ℚ
  y_train_mean : ℚ
  cf : ℚ → ℚ
  cfinv : ℚ → ℚ
  epsilon : ℚ
  saMean : ℚ → ℚ → ℚ → ℚ → ℚ
  saSample : ℚ → ℚ → ℚ → ℚ → ℚ → ℚ

/-- `self.y_sd_posterior_sd_init` (cdrnnbayes.py line 81). -/
def y_sd_posterior_sd_init (s : OutState) : ℚ :=
  s.y_sd_prior_sd * s.posterior_to_prior_sd_ratio

/-- `self.y_skewness_posterior_sd_init` (cdrnnbayes.py line 84). -/
def y_skewness_posterior_sd_init (s : OutState) : ℚ :=
  s.y_skewness_prior_sd * s.posterior_to_prior_sd_ratio

/-- `self.y_tailweight_posterior_sd_init` (cdrnnbayes.py line 89). -/
def y_tailweight_posterior_sd_init (s : OutState) : ℚ :=
  s.y_tailweight_prior_sd * s.posterior_to_prior_sd_ratio

/-- The output-model nodes built by `_initialize_output_model`.  Value
nodes are functions of the `use_MAP_mode` flag and a draw; summary
nodes are functions of the flag (the source builds them from the same
graph, so they are a function of the same placeholders). -/
structure OutModel where
  y_sd_dist : Option NormalQ
  y_sd : Bool → ℚ → ℚ
  y_sd_summary : Bool → ℚ
  y_skewness_dist : Option NormalQ
  y_skewness : Option (Bool → ℚ → ℚ)
  y_skewness_summary : Option (Bool → ℚ)
  y_tailweight_dist : Option NormalQ
  y_tailweight : Option (Bool → ℚ → ℚ)
  y_tailweight_summary : Option (Bool → ℚ)
  out_standardized : Option (Bool → ℚ → ℚ)
  out : Bool → ℚ → ℚ

/-- `_initialize_output_model` (cdrnnbayes.py lines 733-1042),
restricted to the nodes the claims touch: the `y_sd` / `y_skewness` /
`y_tailweight` posterior distributions with their value and summary
nodes, and the final `self.out` / `self.out_standardized` nodes. -/
def init_output_model (s : OutState) : OutModel :=
  let ySdDist : Option NormalQ :=
    if s.y_sd_trainable then
      some { loc := s.y_sd_init_unconstrained,
             scale := s.cf (s.cfinv (y_sd_posterior_sd_init s)) + s.epsilon }
    else none
  let ySd : Bool → ℚ → ℚ :=
    match ySdDist with
    | some d => fun b n => s.cf ((if b then d.mean else d.sample n) + s.y_sd_delta) + s.epsilon
    | none => fun _ _ => s.y_sd_init
  let ySdSummary : Bool → ℚ :=
    match ySdDist with
    | some d => fun _ => s.cf (d.mean + s.y_sd_delta_ema) + s.epsilon
    | none => fun _ => s.y_sd_init
  let ySkewDist : Option NormalQ :=
    if s.asymmetric_error then
      some { loc := 0, scale := s.cf (s.cfinv (y_skewness_posterior_sd_init s)) + s.epsilon }
    else none
  let ySkew : Option (Bool → ℚ → ℚ) :=
    ySkewDist.map (fun d => fun b n => (if b then d.mean else d.sample n) + s.y_skewness_delta)
  let ySkewSummary : Option (Bool → ℚ) :=
    ySkewDist.map (fun d => fun _ => d.mean + s.y_skewness_delta_ema)
  let yTailDist : Option NormalQ :=
    if s.asymmetric_error then
      some { loc := s.cfinv 1, scale := s.cf (s.cfinv (y_tailweight_posterior_sd_init s)) + s.epsilon }
    else none
  let yTail : Option (Bool → ℚ → ℚ) :=
    yTailDist.map (fun d => fun b n => (if b then d.mean else d.sample n) + s.y_tailweight_delta)
  let yTailSummary : Option (Bool → ℚ) :=
    yTailDist.map (fun d => fun _ => d.mean + s.y_tailweight_delta_ema)
  match s.asymmetric_error, ySkew, yTail with
  | true, some skewNode, some tailNode =>
    if s.standardize_response then
      { y_sd_dist := ySdDist, y_sd := ySd, y_sd_summary := ySdSummary
        y_skewness_dist := ySkewDist, y_skewness := ySkew, y_skewness_summary := ySkewSummary
        y_tailweight_dist := yTailDist, y_tailweight := yTail, y_tailweight_summary := yTailSummary
        out_standardized := some (fun b n =>
          if b then s.saMean s.out (ySd b n) (skewNode b n) (s.cf (tailNode b n) + s.epsilon)
          else s.saSample s.out (ySd b n) (skewNode b n) (s.cf (tailNode b n) + s.epsilon) n)
        out := fun b n =>
          if b then
            s.saMean (s.out * s.y_train_sd + s.y_train_mean) (ySd b n * s.y_train_sd)
              (skewNode b n) (s.cf (tailNode b n) + s.epsilon)
          else
            s.saSample (s.out * s.y_train_sd + s.y_train_mean) (ySd b n * s.y_train_sd)
              (skewNode b n) (s.cf (tailNode b n) + s.epsilon) n }
    else
      { y_sd_dist := ySdDist, y_sd := ySd, y_sd_summary := ySdSummary
        y_skewness_dist := ySkewDist, y_skewness := ySkew, y_skewness_summary := ySkewSummary
        y_tailweight_dist := yTailDist, y_tailweight := yTail, y_tailweight_summary := yTailSummary
        out_standardized := none
        out := fun b n =>
          if b then s.saMean s.out (ySd b n) (skewNode b n) (s.cf (tailNode b n) + s.epsilon)
          else s.saSample s.out (ySd b n) (skewNode b n) (s.cf (tailNode b n) + s.epsilon) n }
  | _, _, _ =>
    if s.standardize_response then
      { y_sd_dist := ySdDist, y_sd := ySd, y_sd_summary := ySdSummary
        y_skewness_dist := none, y_skewness := none, y_skewness_summary := none
        y_tailweight_dist := none, y_tailweight := none, y_tailweight_summary := none
        out_standardized := some (fun b n =>
          if b then s.out else NormalQ.sample { loc := s.out, scale := ySd b n } n)
        out := fun b n =>
          if b then s.out * s.y_train_sd + s.y_train_mean
          else NormalQ.sample
            { loc := s.out * s.y_train_sd + s.y_train_mean, scale := ySd b n * s.y_train_sd } n }
    else
      { y_sd_dist := ySdDist, y_sd := ySd, y_sd_summary := ySdSummary
        y_skewness_dist := none, y_skewness := none, y_skewness_summary := none
        y_tailweight_dist := none, y_tailweight := none, y_tailweight_summary := none
        out_standardized := none
        out := fun b n =>
          if b then s.out else NormalQ.sample { loc := s.out, scale := ySd b n } n }

/-- `run_predict_op` (cdrnnbayes.py lines 1160-1166): runs `self.out`
(in MAP mode, since prediction feeds `training=False` and
`use_MAP_mode` defaults to `not training`), then de-standardizes
unless the caller asks for standardized units. -/
def run_predict_op (s : OutState) (standardize_response : Bool) : ℚ :=
  let m := init_output_model s
  let preds := m.out true 0
  if s.standardize_response && !standardize_response then
    preds * s.y_train_sd + s.y_train_mean
  else preds

/-- Python `int(...)` on a rational: truncation toward zero (the
numerator over the positive denominator, in lowest terms, with
truncating integer division). -/
def pyInt (q : ℚ) : ℤ := q.num.tdiv q.den

/-- A trainable graph variable; only its name matters to the
regularization loop (line 1101: `if 'bias' not in v.name`). -/
structure GraphVar where
  name : String
  deriving DecidableEq

/-- True when the variable's name does not contain the substring
`bias`. -/
def notContainsBias (v : GraphVar) : Bool :=
  (v.name.splitOn "bias").length == 1

/-- The slice of state read by `initialize_objective` and
`run_train_step`.  A regularizable layer is modelled by its list of
weight variables (a bare variable, the source's non-`weights` branch,
is a singleton list).  `regularizerLosses` holds the penalties already
accumulated by `_regularize` before objective assembly; `klPenalties`
holds the KL-penalty tensors (as lists of elements) accumulated during
network construction.  `nnPenalty` is modelled from the spec:
`_regularize` (cdrbase.py, not present under src/) registers one L-p
penalty per non-bias weight variable. -/
structure ObjState where
  lossFilterNSds : ℚ
  emaDecay : ℚ
  epsilon : ℚ
  lossEma : ℚ
  lossSdEma : ℚ
  globalBatchStep : Nat
  scaleLossWithData : Bool
  minibatchScale : ℚ
  regularizableLayers : List (List GraphVar)
  regularizerLosses : List ℚ
  klPenalties : List (List ℚ)
  optimName : Option String
  sqrtFn : ℚ → ℚ
  nnPenalty : GraphVar → ℚ

/-- Whether the outlier-filter block is built
(`if self.loss_filter_n_sds and self.ema_decay`, line 1058, with
Python float truthiness). -/
def lossFilterEnabled (s : ObjState) : Bool :=
  decide (s.lossFilterNSds ≠ 0) && decide (s.emaDecay ≠ 0)

/-- Outputs of the outlier-filter block (cdrnnbayes.py lines
1058-1088), evaluated on one batch of per-example losses. -/
structure FilterBlock where
  lf : List ℚ
  nRetained : ℚ
  nDropped : ℚ
  lossEmaUpdate : ℚ
  lossSdEmaUpdate : ℚ
  deriving DecidableEq

/-- The outlier-filter block: cutoff from the current EMA pair, 0/1
mask, filtered loss, warm-up switch, and the EMA update values that
`loss_ema_op` / `loss_sd_ema_op` assign. -/
def filterBlock (s : ObjState) (lossVec : List ℚ) : FilterBlock :=
  let beta := s.emaDecay
  let emaWarmUp : ℤ := pyInt (2 / (1 - beta))
  let nSds := s.lossFilterNSds
  let lossCutoff := s.lossEma + nSds * s.lossSdEma
  let lossFuncFilter : List ℚ := lossVec.map (fun x => if x < lossCutoff then 1 else 0)
  let lossFuncFiltered : List ℚ := List.zipWith (· * ·) lossVec lossFuncFilter
  let nBatch : ℚ := lossVec.length
  let nRetainedPre : ℚ := lossFuncFilter.sum
  let nDropped := nBatch - nRetainedPre
  let lfAndRet : List ℚ × ℚ :=
    if (s.globalBatchStep : ℤ) > emaWarmUp then (lossFuncFiltered, nRetainedPre)
    else (lossVec, nBatch)
  let lf := lfAndRet.1
  let nRetained := lfAndRet.2
  let lossMeanCur := lf.sum / (nRetained + s.epsilon)
  let lossSdCur := s.sqrtFn ((lf.map (fun x => (x - s.lossEma) ^ 2)).sum) / (nRetained + s.epsilon)
  { lf := lf
    nRetained := nRetained
    nDropped := nDropped
    lossEmaUpdate := beta * s.lossEma + (1 - beta) * lossMeanCur
    lossSdEmaUpdate := beta * s.lossSdEma + (1 - beta) * lossSdCur }

/-- The assembled objective: the scalar loss, the reported
regularization loss and KL loss, and the filter block if built. -/
structure ObjOut where
  lossFunc : ℚ
  regLoss : ℚ
  klLoss : ℚ
  fb : Option FilterBlock
  deriving DecidableEq

/-- `initialize_objective` (cdrnnbayes.py lines 1044-1118), evaluated
on one batch of per-example losses (`loss_func = -ll`): optional
outlier filtering, batch reduction, the regularization loop over
`regularizable_layers`, the KL total, and the optimizer assertion. -/
def init_objective (s : ObjState) (lossVec : List ℚ) : Except String ObjOut :=
  let fb : Option FilterBlock :=
    if lossFilterEnabled s then some (filterBlock s lossVec) else none
  let lf : List ℚ :=
    match fb with
    | some b => b.lf
    | none => lossVec
  let lossBase : ℚ :=
    if s.scaleLossWithData then lf.sum * s.minibatchScale
    else lf.sum / (lf.length : ℚ)
  let regAll : List ℚ :=
    s.regularizerLosses ++
      ((s.regularizableLayers.flatten.filter (fun v => notContainsBias v)).map s.nnPenalty)
  let regStage : ℚ × ℚ :=
    if regAll = [] then (0, lossBase) else (regAll.sum, lossBase + regAll.sum)
  let klStage : ℚ × ℚ × ℚ :=
    if s.klPenalties = [] then (0, regStage.2, regStage.1)
    else
      ((s.klPenalties.map List.sum).sum,
        regStage.2 + (s.klPenalties.map List.sum).sum,
        regStage.1 + (s.klPenalties.map List.sum).sum)
  match s.optimName with
  | none => Except.error "An optimizer name must be supplied"
  | some _ =>
    Except.ok { lossFunc := klStage.2.1, regLoss := klStage.2.2, klLoss := klStage.1, fb := fb }

/-- What `run_train_step` leaves behind: the returned dict entries
(`n_dropped` when the filter is configured, `loss`, `reg_loss`) and
the EMA variable values after `loss_ema_op` / `loss_sd_ema_op` ran. -/
structure TrainDict where
  nDropped : Option ℚ
  loss : ℚ
  regLoss : ℚ
  lossEmaNew : ℚ
  lossSdEmaNew : ℚ
  deriving DecidableEq

/-- `run_train_step` (cdrnnbayes.py lines 1140-1158) over the graph
assembled by `initialize_objective`: runs the train op and the EMA
ops, and reports `n_dropped` (when `loss_filter_n_sds` is truthy),
`loss` and `reg_loss`. -/
def run_train_step (s : ObjState) (lossVec : List ℚ) : Except String TrainDict :=
  match init_objective s lossVec with
  | Except.error e => Except.error e
  | Except.ok obj =>
    Except.ok
      { nDropped :=
          if s.lossFilterNSds ≠ 0 then obj.fb.map FilterBlock.nDropped else none
        loss := obj.lossFunc
        regLoss := obj.regLoss
        lossEmaNew :=
          match obj.fb with
          | some b => b.lossEmaUpdate
          | none => s.lossEma
        lossSdEmaNew :=
          match obj.fb with
          | some b => b.lossSdEmaUpdate
          | none => s.lossSdEma }

/-
Concrete model states used to evaluate the code at specific inputs.
The constraint pair is instantiated as the absolute-value constraint
(identity inverse); `sqrtFn` never matters on numeric prior specs.
-/

/-- Absolute value on ℚ, written so the kernel evaluates it. -/
def qabs (x : ℚ) : ℚ := if x < 0 then -x else x

/-- A model configuration exercising the posterior-scale seeding:
`intercept_prior_sd = 1`, `posterior_to_prior_sd_ratio = 1`,
`ranef_to_fixef_prior_sd_ratio = 1/2`, one grouping factor `subject`
with 5 observed levels, numeric weight/bias prior sds of 1. -/
def C3state : ModelState :=
  { rangf := ["subject"]
    rangf_n_levels := [5]
    impulse_names := ["a"]
    n_units_rnn := [4]
    n_units_hidden_state := 4
    n_units_t_delta_embedding := 4
    constraint_fn := qabs
    constraint_fn_inv := fun x => x
    epsilon := 0
    posterior_to_prior_sd_ratio := 1
    ranef_to_fixef_prior_sd_ratio := 1 / 2
    intercept_init := 0
    intercept_prior_sd := 1
    weight_prior_sd := PriorSpec.num 1
    bias_prior_sd := PriorSpec.num 1
    declare_priors_fixef := true
    declare_priors_ranef := true
    sqrtFn := fun x => x }

/-- C3: the posterior-scale seeds deviate from
`prior_scale * posterior_to_prior_sd_ratio`.  The intercept
random-effect call seeds the constrained posterior scale at
`intercept_ranef_posterior_sd_init * ranef_to_fixef_prior_sd_ratio`
(the ranef ratio applied a second time, giving 1/4 instead of the
ranef prior scale times the ratio, 1/2), and the fixed-effect IRF
first-layer bias scales are seeded by `tf.zeros * constraint_fn_inv(...)`,
i.e. at 0 instead of the prior scale times the ratio, 1. -/
theorem C3_seed_bug :
    ((init_intercept C3state (some "subject")).toOption.map
        (fun r => r.qDist.scale.fill) = some (1 / 4)
      ∧ intercept_ranef_prior_sd C3state * C3state.posterior_to_prior_sd_ratio = 1 / 2
      ∧ ((1 : ℚ) / 4) ≠ 1 / 2)
    ∧ ((init_irf_l1_biases C3state none).toOption.map
        (fun p => p.1.qDist.scale.fill) = some 0
      ∧ ((init_irf_l1_biases C3state none).toOption.map
        (fun p => p.2.qDist.scale.fill) = some 0)
      ∧ resolveSD C3state C3state.weight_prior_sd C3state.n_units_t_delta_embedding
          * C3state.posterior_to_prior_sd_ratio = 1
      ∧ ((0 : ℚ) ≠ 1)) := by
  refine ⟨⟨?_, ?_, ?_⟩, ?_, ?_, ?_, ?_⟩ <;>
    norm_num [init_intercept, init_irf_l1_biases, C3state, pyIndex, pyGet, qabs,
      Tensor.ones, Tensor.zeros, Tensor.smul, Tensor.map, Tensor.addScalar,
      intercept_posterior_sd_init, intercept_ranef_posterior_sd_init,
      intercept_ranef_prior_sd, resolveSD, Except.toOption]

/-- A model configuration exercising the hidden-state-bias prior:
`bias_prior_sd = 3/10`, `ranef_to_fixef_prior_sd_ratio = 1/10`,
random-effect priors declared. -/
def C4state : ModelState :=
  { rangf := ["g"]
    rangf_n_levels := [3]
    impulse_names := ["a"]
    n_units_rnn := [4]
    n_units_hidden_state := 4
    n_units_t_delta_embedding := 4
    constraint_fn := qabs
    constraint_fn_inv := fun x => x
    epsilon := 0
    posterior_to_prior_sd_ratio := 1
    ranef_to_fixef_prior_sd_ratio := 1 / 10
    intercept_init := 0
    intercept_prior_sd := 1
    weight_prior_sd := PriorSpec.num 1
    bias_prior_sd := PriorSpec.num (3 / 10)
    declare_priors_fixef := true
    declare_priors_ranef := true
    sqrtFn := fun x => x }

/-- C4: the hidden-state-bias random-effect prior scale is
`h_bias_sd_prior * h_bias_sd_prior` (9/100 here) instead of
`h_bias_sd_prior * ranef_to_fixef_prior_sd_ratio` (3/100), unlike
every other parameter kind. -/
theorem C4_h_bias_prior_bug :
    ((init_h_bias C4state (some "g")).toOption.map
        (fun r => r.prior.map (fun p => p.scale.fill)) = some (some (9 / 100)))
    ∧ resolveSD C4state C4state.bias_prior_sd C4state.n_units_hidden_state
        * C4state.ranef_to_fixef_prior_sd_ratio = 3 / 100
    ∧ ((9 : ℚ) / 100) ≠ 3 / 100 := by
  refine ⟨?_, ?_, ?_⟩ <;>
    norm_num [init_h_bias, C4state, pyIndex, pyGet, qabs,
      Tensor.ones, Tensor.zeros, Tensor.smul, Tensor.map, Tensor.addScalar,
      resolveSD, Except.toOption]

/-- An output-model configuration of a model trained with
`standardize_response` enabled: Normal error family, fixed
`y_sd`, standardized network output `out = 1`, training statistics
`y_train_sd = 2`, `y_train_mean = 10`. -/
def C5state : OutState :=
  { y_sd_trainable := false
    asymmetric_error := false
    standardize_response := true
    y_sd_init := 1
    y_sd_init_unconstrained := 1
    y_sd_prior_sd := 1
    y_skewness_prior_sd := 1
    y_tailweight_prior_sd := 1
    posterior_to_prior_sd_ratio := 1
    y_sd_delta := 0
    y_sd_delta_ema := 0
    y_skewness_delta := 0
    y_skewness_delta_ema := 0
    y_tailweight_delta := 0
    y_tailweight_delta_ema := 0
    out := 1
    y_train_sd := 2
    y_train_mean := 10
    cf := qabs
    cfinv := fun x => x
    epsilon := 0
    saMean := fun l _ _ _ => l
    saSample := fun l _ _ _ _ => l }

/-- C5: `_initialize_output_model` reassigns `self.out` to the
raw-units distribution (mean `out * y_train_sd + y_train_mean = 12`),
and `run_predict_op` then de-standardizes it again: the default call
returns 34, not the raw-units prediction 12, and the
`standardize_response=True` call returns 12, not the standardized
prediction 1. -/
theorem C5_double_destandardize :
    run_predict_op C5state false = 34
    ∧ C5state.out * C5state.y_train_sd + C5state.y_train_mean = 12
    ∧ ((34 : ℚ) ≠ 12)
    ∧ run_predict_op C5state true = 12
    ∧ ((init_output_model C5state).out_standardized).map (fun f => f true 0) = some 1
    ∧ ((12 : ℚ) ≠ 1) := by
  refine ⟨?_, ?_, ?_, ?_, ?_, ?_⟩ <;>
    norm_num [run_predict_op, init_output_model, C5state, qabs, NormalQ.sample]

/-- Whether an `Except` result is a success. -/
def exIsOk {α : Type} (e : Except String α) : Bool :=
  match e with
  | Except.ok _ => true
  | Except.error _ => false

/-- `pyIndex` on an absent element is the `ValueError`. -/
theorem pyIndex_of_not_mem (xs : List String) (x : String) (h : x ∉ xs) :
    pyIndex xs x = Except.error (x ++ " is not in list") := by
  induction xs with
  | nil => rfl
  | cons a rest ih =>
    have hax : ¬ a = x := fun hax => h (hax ▸ List.mem_cons_self a rest)
    have hrest : x ∉ rest := fun hr => h (List.mem_cons_of_mem a hr)
    simp [pyIndex, hax, ih hrest, Except.map]

/-- C8: assembling the objective without a configured optimizer name
fails at once with the assertion message, before any train step can
run (`run_train_step` propagates the same failure); with an optimizer
name configured, assembly succeeds. -/
theorem C8_optimizer_assert (s : ObjState) (v : List ℚ) :
    (s.optimName = none →
      init_objective s v = Except.error "An optimizer name must be supplied")
    ∧ (∀ nm, s.optimName = some nm → exIsOk (init_objective s v) = true)
    ∧ (s.optimName = none →
      run_train_step s v = Except.error "An optimizer name must be supplied") := by
  refine ⟨fun h => ?_, fun nm h => ?_, fun h => ?_⟩
  · simp [init_objective, h]
  · simp only [init_objective, h, exIsOk]
  · simp [run_train_step, init_objective, h]

/-- An objective state with no optimizer configured. -/
def C8stateNone : ObjState :=
  { lossFilterNSds := 0
    emaDecay := 0
    epsilon := 0
    lossEma := 0
    lossSdEma := 0
    globalBatchStep := 0
    scaleLossWithData := false
    minibatchScale := 1
    regularizableLayers := []
    regularizerLosses := []
    klPenalties := []
    optimName := none
    sqrtFn := fun x => x
    nnPenalty := fun _ => 0 }

/-- The same objective state with an optimizer configured. -/
def C8stateSome : ObjState :=
  { C8stateNone with optimName := some "adam" }

/-- Witness for C8 at concrete states. -/
theorem C8_optimizer_assert_witness :
    (C8stateNone.optimName = none
      ∧ init_objective C8stateNone [] = Except.error "An optimizer name must be supplied"
      ∧ run_train_step C8stateNone [] = Except.error "An optimizer name must be supplied")
    ∧ (C8stateSome.optimName = some "adam"
      ∧ exIsOk (init_objective C8stateSome []) = true) :=
  ⟨⟨rfl, (C8_optimizer_assert C8stateNone []).1 rfl,
      (C8_optimizer_assert C8stateNone []).2.2 rfl⟩,
    ⟨rfl, (C8_optimizer_assert C8stateSome []).2.1 "adam" rfl⟩⟩

/-- C9: every parameter builder, called for a grouping factor that is
not in the model's registered list, fails at construction time with
the index-lookup error; none of them falls back to a default. -/
theorem C9_unknown_rangf (s : ModelState) (gf : String) (l u : Nat)
    (h : gf ∉ s.rangf) (hu : s.n_units_rnn.get? l = some u) :
    init_intercept s (some gf) = Except.error (gf ++ " is not in list")
    ∧ init_coefficient s (some gf) = Except.error (gf ++ " is not in list")
    ∧ init_rnn_h s l (some gf) = Except.error (gf ++ " is not in list")
    ∧ init_rnn_c s l (some gf) = Except.error (gf ++ " is not in list")
    ∧ init_h_bias s (some gf) = Except.error (gf ++ " is not in list")
    ∧ init_irf_l1_biases s (some gf) = Except.error (gf ++ " is not in list") := by
  have hidx := pyIndex_of_not_mem s.rangf gf h
  have hu' : s.n_units_rnn[l]? = some u := by
    rw [← List.get?_eq_getElem?]; exact hu
  refine ⟨?_, ?_, ?_, ?_, ?_, ?_⟩
  · simp [init_intercept, hidx]
  · simp [init_coefficient, hidx]
  · simp [init_rnn_h, pyGet, hu', hidx]
  · simp [init_rnn_c, pyGet, hu', hidx]
  · simp [init_h_bias, hidx]
  · simp [init_irf_l1_biases, hidx]

/-- A model state whose only registered grouping factor is `subject`. -/
def C9state : ModelState :=
  { rangf := ["subject"]
    rangf_n_levels := [5]
    impulse_names := ["a"]
    n_units_rnn := [4]
    n_units_hidden_state := 4
    n_units_t_delta_embedding := 4
    constraint_fn := qabs
    constraint_fn_inv := fun x => x
    epsilon := 0
    posterior_to_prior_sd_ratio := 1
    ranef_to_fixef_prior_sd_ratio := 1
    intercept_init := 0
    intercept_prior_sd := 1
    weight_prior_sd := PriorSpec.num 1
    bias_prior_sd := PriorSpec.num 1
    declare_priors_fixef := true
    declare_priors_ranef := true
    sqrtFn := fun x => x }

/-- Witness for C9: the unregistered factor `word` is rejected by all
six builders. -/
theorem C9_unknown_rangf_witness :
    ("word" ∉ C9state.rangf ∧ C9state.n_units_rnn.get? 0 = some 4)
    ∧ (init_intercept C9state (some "word") = Except.error ("word" ++ " is not in list")
      ∧ init_coefficient C9state (some "word") = Except.error ("word" ++ " is not in list")
      ∧ init_rnn_h C9state 0 (some "word") = Except.error ("word" ++ " is not in list")
      ∧ init_rnn_c C9state 0 (some "word") = Except.error ("word" ++ " is not in list")
      ∧ init_h_bias C9state (some "word") = Except.error ("word" ++ " is not in list")
      ∧ init_irf_l1_biases C9state (some "word") = Except.error ("word" ++ " is not in list")) :=
  ⟨⟨by decide, rfl⟩, C9_unknown_rangf C9state "word" 0 4 (by decide) rfl⟩

/-- C6: for a registered grouping factor with `levels` observed
levels, every builder's random-effect call produces posterior location
and scale tensors — and hence a parameter value — whose leading
dimension is exactly `levels - 1`. -/
theorem C6_ranef_dims (s : ModelState) (gf : String) (i levels l u : Nat)
    (hidx : pyIndex s.rangf gf = Except.ok i)
    (hlev : s.rangf_n_levels.get? i = some levels)
    (hu : s.n_units_rnn.get? l = some u) :
    ((init_intercept s (some gf)).toOption.map
        (fun r => (r.qLoc.shape.head?, r.qScaleRaw.shape.head?, (r.value true 0).shape.head?))
      = some (some (levels - 1), some (levels - 1), some (levels - 1)))
    ∧ ((init_coefficient s (some gf)).toOption.map
        (fun r => (r.qLoc.shape.head?, r.qScaleRaw.shape.head?, (r.value true 0).shape.head?))
      = some (some (levels - 1), some (levels - 1), some (levels - 1)))
    ∧ ((init_rnn_h s l (some gf)).toOption.map
        (fun r => (r.qLoc.shape.head?, r.qScaleRaw.shape.head?, (r.value true 0).shape.head?))
      = some (some (levels - 1), some (levels - 1), some (levels - 1)))
    ∧ ((init_rnn_c s l (some gf)).toOption.map
        (fun r => (r.qLoc.shape.head?, r.qScaleRaw.shape.head?, (r.value true 0).shape.head?))
      = some (some (levels - 1), some (levels - 1), some (levels - 1)))
    ∧ ((init_h_bias s (some gf)).toOption.map
        (fun r => (r.qLoc.shape.head?, r.qScaleRaw.shape.head?, (r.value true 0).shape.head?))
      = some (some (levels - 1), some (levels - 1), some (levels - 1)))
    ∧ ((init_irf_l1_biases s (some gf)).toOption.map
        (fun p => (p.1.qLoc.shape.head?, p.1.qScaleRaw.shape.head?,
                   p.2.qLoc.shape.head?, p.2.qScaleRaw.shape.head?))
      = some (some (levels - 1), some (levels - 1), some (levels - 1), some (levels - 1))) := by
  have hlev' : s.rangf_n_levels[i]? = some levels := by
    rw [← List.get?_eq_getElem?]; exact hlev
  have hu' : s.n_units_rnn[l]? = some u := by
    rw [← List.get?_eq_getElem?]; exact hu
  refine ⟨?_, ?_, ?_, ?_, ?_, ?_⟩ <;>
    simp [init_intercept, init_coefficient, init_rnn_h, init_rnn_c, init_h_bias,
      init_irf_l1_biases, hidx, pyGet, hlev', hu', Except.toOption,
      Tensor.zeros, Tensor.ones, Tensor.smul, Tensor.map, Tensor.addScalar, NormalTD.mean]

/-- A model state with grouping factor `subject` observed at 5
levels. -/
def C6state : ModelState :=
  { rangf := ["subject"]
    rangf_n_levels := [5]
    impulse_names := ["a"]
    n_units_rnn := [4]
    n_units_hidden_state := 4
    n_units_t_delta_embedding := 4
    constraint_fn := qabs
    constraint_fn_inv := fun x => x
    epsilon := 0
    posterior_to_prior_sd_ratio := 1
    ranef_to_fixef_prior_sd_ratio := 1
    intercept_init := 0
    intercept_prior_sd := 1
    weight_prior_sd := PriorSpec.num 1
    bias_prior_sd := PriorSpec.num 1
    declare_priors_fixef := true
    declare_priors_ranef := true
    sqrtFn := fun x => x }

/-- Witness for C6: with 5 observed levels the leading dimension is 4
for every builder. -/
theorem C6_ranef_dims_witness :
    pyIndex C6state.rangf "subject" = Except.ok 0
    ∧ C6state.rangf_n_levels.get? 0 = some 5
    ∧ C6state.n_units_rnn.get? 0 = some 4
    ∧ (((init_intercept C6state (some "subject")).toOption.map
        (fun r => (r.qLoc.shape.head?, r.qScaleRaw.shape.head?, (r.value true 0).shape.head?))
      = some (some (5 - 1), some (5 - 1), some (5 - 1)))
    ∧ ((init_coefficient C6state (some "subject")).toOption.map
        (fun r => (r.qLoc.shape.head?, r.qScaleRaw.shape.head?, (r.value true 0).shape.head?))
      = some (some (5 - 1), some (5 - 1), some (5 - 1)))
    ∧ ((init_rnn_h C6state 0 (some "subject")).toOption.map
        (fun r => (r.qLoc.shape.head?, r.qScaleRaw.shape.head?, (r.value true 0).shape.head?))
      = some (some (5 - 1), some (5 - 1), some (5 - 1)))
    ∧ ((init_rnn_c C6state 0 (some "subject")).toOption.map
        (fun r => (r.qLoc.shape.head?, r.qScaleRaw.shape.head?, (r.value true 0).shape.head?))
      = some (some (5 - 1), some (5 - 1), some (5 - 1)))
    ∧ ((init_h_bias C6state (some "subject")).toOption.map
        (fun r => (r.qLoc.shape.head?, r.qScaleRaw.shape.head?, (r.value true 0).shape.head?))
      = some (some (5 - 1), some (5 - 1), some (5 - 1)))
    ∧ ((init_irf_l1_biases C6state (some "subject")).toOption.map
        (fun p => (p.1.qLoc.shape.head?, p.1.qScaleRaw.shape.head?,
                   p.2.qLoc.shape.head?, p.2.qScaleRaw.shape.head?))
      = some (some (5 - 1), some (5 - 1), some (5 - 1), some (5 - 1)))) :=
  ⟨rfl, rfl, rfl, C6_ranef_dims C6state "subject" 0 5 0 4 rfl rfl rfl⟩

/-- C7: assembling the objective with no regularizable layers, no
previously registered regularizer penalties and an empty KL-penalty
list yields `reg_loss = 0`, `kl_loss = 0`, and a total loss equal to
exactly the negative log-likelihood term (its mean, or the data-scaled
sum when `scale_loss_with_data` is configured). -/
theorem C7_pure_nll (s : ObjState) (v : List ℚ) (r : ObjOut)
    (hlay : s.regularizableLayers = [])
    (hreg : s.regularizerLosses = [])
    (hkl : s.klPenalties = [])
    (hr : init_objective s v = Except.ok r) :
    r.regLoss = 0 ∧ r.klLoss = 0
    ∧ r.lossFunc =
        (if s.scaleLossWithData then
          (if lossFilterEnabled s then (filterBlock s v).lf else v).sum * s.minibatchScale
        else
          (if lossFilterEnabled s then (filterBlock s v).lf else v).sum
            / (((if lossFilterEnabled s then (filterBlock s v).lf else v).length : ℚ))) := by
  cases honm : s.optimName with
  | none => simp [init_objective, honm] at hr
  | some nm =>
    simp only [init_objective, honm, hlay, hreg, hkl, List.map_nil, List.flatten_nil,
      List.filter_nil, List.nil_append, List.length_nil, ne_eq, not_true_eq_false,
      if_false, ite_false, ite_true, Except.ok.injEq] at hr
    subst hr
    refine ⟨rfl, rfl, ?_⟩
    by_cases hf : lossFilterEnabled s <;> simp [hf]

/-- An objective state with no regularization and no KL penalties. -/
def C7state : ObjState :=
  { lossFilterNSds := 0
    emaDecay := 0
    epsilon := 0
    lossEma := 0
    lossSdEma := 0
    globalBatchStep := 0
    scaleLossWithData := false
    minibatchScale := 1
    regularizableLayers := []
    regularizerLosses := []
    klPenalties := []
    optimName := some "adam"
    sqrtFn := fun x => x
    nnPenalty := fun _ => 0 }

/-- Witness for C7 on the batch `[1, 2, 3]`. -/
theorem C7_pure_nll_witness :
    C7state.regularizableLayers = [] ∧ C7state.regularizerLosses = []
    ∧ C7state.klPenalties = []
    ∧ ∃ r, init_objective C7state [1, 2, 3] = Except.ok r
      ∧ (r.regLoss = 0 ∧ r.klLoss = 0
        ∧ r.lossFunc =
          (if C7state.scaleLossWithData then
            (if lossFilterEnabled C7state then (filterBlock C7state [1, 2, 3]).lf
              else [1, 2, 3]).sum * C7state.minibatchScale
          else
            (if lossFilterEnabled C7state then (filterBlock C7state [1, 2, 3]).lf
              else [1, 2, 3]).sum
              / (((if lossFilterEnabled C7state then (filterBlock C7state [1, 2, 3]).lf
                else [1, 2, 3]).length : ℚ)))) :=
  ⟨rfl, rfl, rfl, ⟨_, rfl, C7_pure_nll C7state [1, 2, 3] _ rfl rfl rfl rfl⟩⟩

/-- C10: with a non-empty KL-penalty list, the `reg_loss` reported by
`run_train_step` equals the sum of the registered regularization
penalties plus the total KL divergence — the KL term is folded into
both the total loss and `reg_loss`. -/
theorem C10_regLoss_includes_kl (s : ObjState) (v : List ℚ) (d : TrainDict)
    (hkl : s.klPenalties ≠ [])
    (hd : run_train_step s v = Except.ok d) :
    d.regLoss =
      (s.regularizerLosses
        ++ (s.regularizableLayers.flatten.filter (fun w => notContainsBias w)).map s.nnPenalty).sum
      + (s.klPenalties.map List.sum).sum
    ∧ d.loss =
      (if s.scaleLossWithData then
        (if lossFilterEnabled s then (filterBlock s v).lf else v).sum * s.minibatchScale
      else
        (if lossFilterEnabled s then (filterBlock s v).lf else v).sum
          / (((if lossFilterEnabled s then (filterBlock s v).lf else v).length : ℚ)))
      + (s.regularizerLosses
        ++ (s.regularizableLayers.flatten.filter (fun w => notContainsBias w)).map s.nnPenalty).sum
      + (s.klPenalties.map List.sum).sum := by
  cases honm : s.optimName with
  | none => simp [run_train_step, init_objective, honm] at hd
  | some nm =>
    simp only [run_train_step, init_objective, honm, hkl, ite_false, if_neg hkl,
      Except.ok.injEq] at hd
    subst hd
    by_cases hra :
        (s.regularizerLosses
          ++ (s.regularizableLayers.flatten.filter (fun w => notContainsBias w)).map s.nnPenalty)
          = []
    · rw [if_pos hra]
      refine ⟨?_, ?_⟩ <;> rw [hra] <;>
        by_cases hf : lossFilterEnabled s <;> simp [hf]
    · rw [if_neg hra]
      refine ⟨?_, ?_⟩ <;>
        by_cases hf : lossFilterEnabled s <;> simp [hf]

/-- An objective state with one regularizable layer (one non-bias
weight, one bias), a pre-registered penalty of 7, per-weight penalty
5, and KL penalties summing to 6. -/
def C10state : ObjState :=
  { lossFilterNSds := 0
    emaDecay := 0
    epsilon := 0
    lossEma := 0
    lossSdEma := 0
    globalBatchStep := 0
    scaleLossWithData := false
    minibatchScale := 1
    regularizableLayers := [[{ name := "w" }, { name := "b_bias" }]]
    regularizerLosses := [7]
    klPenalties := [[1], [2, 3]]
    optimName := some "adam"
    sqrtFn := fun x => x
    nnPenalty := fun _ => 5 }

/-- Witness for C10 on the batch `[2, 4]`. -/
theorem C10_regLoss_includes_kl_witness :
    C10state.klPenalties ≠ []
    ∧ ∃ d, run_train_step C10state [2, 4] = Except.ok d
      ∧ (d.regLoss =
          (C10state.regularizerLosses
            ++ (C10state.regularizableLayers.flatten.filter
                (fun w => notContainsBias w)).map C10state.nnPenalty).sum
          + (C10state.klPenalties.map List.sum).sum
        ∧ d.loss =
          (if C10state.scaleLossWithData then
            (if lossFilterEnabled C10state then (filterBlock C10state [2, 4]).lf
              else [2, 4]).sum * C10state.minibatchScale
          else
            (if lossFilterEnabled C10state then (filterBlock C10state [2, 4]).lf
              else [2, 4]).sum
              / (((if lossFilterEnabled C10state then (filterBlock C10state [2, 4]).lf
                else [2, 4]).length : ℚ)))
          + (C10state.regularizerLosses
            ++ (C10state.regularizableLayers.flatten.filter
                (fun w => notContainsBias w)).map C10state.nnPenalty).sum
          + (C10state.klPenalties.map List.sum).sum) :=
  ⟨by simp [C10state], ⟨_, rfl, C10_regLoss_includes_kl C10state [2, 4] _ (by simp [C10state]) rfl⟩⟩

/-- An output-model state with a trainable `y_sd` whose delta EMA is
nonzero (`y_sd_delta_ema = 1`), posterior location 1. -/
def C1state : OutState :=
  { y_sd_trainable := true
    asymmetric_error := false
    standardize_response := false
    y_sd_init := 1
    y_sd_init_unconstrained := 1
    y_sd_prior_sd := 1
    y_skewness_prior_sd := 1
    y_tailweight_prior_sd := 1
    posterior_to_prior_sd_ratio := 1
    y_sd_delta := 0
    y_sd_delta_ema := 1
    y_skewness_delta := 0
    y_skewness_delta_ema := 0
    y_tailweight_delta := 0
    y_tailweight_delta_ema := 0
    out := 0
    y_train_sd := 1
    y_train_mean := 0
    cf := qabs
    cfinv := fun x => x
    epsilon := 1 / 100000
    saMean := fun l _ _ _ => l
    saSample := fun l _ _ _ _ => l }

/-- C1 counterexample: the `y_sd` summary is the posterior mean plus
the delta EMA (then constrained), not the posterior mean itself: here
the posterior mean is 1 but the summary evaluates to
`|1 + 1| + 1/100000 ≠ 1`. -/
theorem C1_counterexample :
    (init_output_model C1state).y_sd_dist = some { loc := 1, scale := 100001 / 100000 }
    ∧ (init_output_model C1state).y_sd_summary true
        ≠ NormalQ.mean { loc := 1, scale := 100001 / 100000 } := by
  constructor <;>
    norm_num [init_output_model, C1state, qabs, NormalQ.mean, y_sd_posterior_sd_init]

/-- C1 (amended): every summary node is independent of the
`use_MAP_mode` flag; the network builders' summaries equal their
posterior distribution's mean, while the output-model summaries equal
the posterior mean plus the corresponding delta EMA (with the
positivity constraint and epsilon applied for `y_sd`). -/
theorem C1_summary_semantics (s : ModelState) (gf : Option String) (l : Nat)
    (os : OutState) (b b' : Bool) :
    ((init_intercept s gf).toOption.map (fun r => r.summary b)
        = (init_intercept s gf).toOption.map (fun r => r.qDist.mean)
      ∧ (init_intercept s gf).toOption.map (fun r => r.summary b)
        = (init_intercept s gf).toOption.map (fun r => r.summary b'))
    ∧ ((init_coefficient s gf).toOption.map (fun r => r.summary b)
        = (init_coefficient s gf).toOption.map (fun r => r.qDist.mean)
      ∧ (init_coefficient s gf).toOption.map (fun r => r.summary b)
        = (init_coefficient s gf).toOption.map (fun r => r.summary b'))
    ∧ ((init_rnn_h s l gf).toOption.map (fun r => r.summary b)
        = (init_rnn_h s l gf).toOption.map (fun r => r.qDist.mean)
      ∧ (init_rnn_h s l gf).toOption.map (fun r => r.summary b)
        = (init_rnn_h s l gf).toOption.map (fun r => r.summary b'))
    ∧ ((init_rnn_c s l gf).toOption.map (fun r => r.summary b)
        = (init_rnn_c s l gf).toOption.map (fun r => r.qDist.mean)
      ∧ (init_rnn_c s l gf).toOption.map (fun r => r.summary b)
        = (init_rnn_c s l gf).toOption.map (fun r => r.summary b'))
    ∧ ((init_h_bias s gf).toOption.map (fun r => r.summary b)
        = (init_h_bias s gf).toOption.map (fun r => r.qDist.mean)
      ∧ (init_h_bias s gf).toOption.map (fun r => r.summary b)
        = (init_h_bias s gf).toOption.map (fun r => r.summary b'))
    ∧ ((init_irf_l1_biases s gf).toOption.map (fun p => (p.1.summary b, p.2.summary b))
        = (init_irf_l1_biases s gf).toOption.map (fun p => (p.1.qDist.mean, p.2.qDist.mean))
      ∧ (init_irf_l1_biases s gf).toOption.map (fun p => (p.1.summary b, p.2.summary b))
        = (init_irf_l1_biases s gf).toOption.map (fun p => (p.1.summary b', p.2.summary b')))
    ∧ ((init_output_model os).y_sd_summary b
        = (match (init_output_model os).y_sd_dist with
          | some d => os.cf (d.mean + os.y_sd_delta_ema) + os.epsilon
          | none => os.y_sd_init)
      ∧ (init_output_model os).y_sd_summary b = (init_output_model os).y_sd_summary b')
    ∧ ((init_output_model os).y_skewness_summary.map (fun f => f b)
        = (init_output_model os).y_skewness_dist.map (fun d => d.mean + os.y_skewness_delta_ema)
      ∧ (init_output_model os).y_skewness_summary.map (fun f => f b)
        = (init_output_model os).y_skewness_summary.map (fun f => f b'))
    ∧ ((init_output_model os).y_tailweight_summary.map (fun f => f b)
        = (init_output_model os).y_tailweight_dist.map (fun d => d.mean + os.y_tailweight_delta_ema)
      ∧ (init_output_model os).y_tailweight_summary.map (fun f => f b)
        = (init_output_model os).y_tailweight_summary.map (fun f => f b')) := by
  have hI : ∀ c, (init_intercept s gf).toOption.map (fun r => r.summary c)
      = (init_intercept s gf).toOption.map (fun r => r.qDist.mean) := by
    intro c
    cases gf with
    | none => simp [init_intercept, Except.toOption]
    | some g =>
      cases hp : pyIndex s.rangf g with
      | error e => simp [init_intercept, hp, Except.toOption]
      | ok idx =>
        cases hq : pyGet s.rangf_n_levels idx with
        | error e => simp [init_intercept, hp, hq, Except.toOption]
        | ok nl => simp [init_intercept, hp, hq, Except.toOption]
  have hC : ∀ c, (init_coefficient s gf).toOption.map (fun r => r.summary c)
      = (init_coefficient s gf).toOption.map (fun r => r.qDist.mean) := by
    intro c
    cases gf with
    | none => simp [init_coefficient, Except.toOption]
    | some g =>
      cases hp : pyIndex s.rangf g with
      | error e => simp [init_coefficient, hp, Except.toOption]
      | ok idx =>
        cases hq : pyGet s.rangf_n_levels idx with
        | error e => simp [init_coefficient, hp, hq, Except.toOption]
        | ok nl => simp [init_coefficient, hp, hq, Except.toOption]
  have hRH : ∀ c, (init_rnn_h s l gf).toOption.map (fun r => r.summary c)
      = (init_rnn_h s l gf).toOption.map (fun r => r.qDist.mean) := by
    intro c
    cases hu : pyGet s.n_units_rnn l with
    | error e => simp [init_rnn_h, hu, Except.toOption]
    | ok u =>
      cases gf with
      | none => simp [init_rnn_h, hu, Except.toOption]
      | some g =>
        cases hp : pyIndex s.rangf g with
        | error e => simp [init_rnn_h, hu, hp, Except.toOption]
        | ok idx =>
          cases hq : pyGet s.rangf_n_levels idx with
          | error e => simp [init_rnn_h, hu, hp, hq, Except.toOption]
          | ok nl => simp [init_rnn_h, hu, hp, hq, Except.toOption]
  have hRC : ∀ c, (init_rnn_c s l gf).toOption.map (fun r => r.summary c)
      = (init_rnn_c s l gf).toOption.map (fun r => r.qDist.mean) := by
    intro c
    cases hu : pyGet s.n_units_rnn l with
    | error e => simp [init_rnn_c, hu, Except.toOption]
    | ok u =>
      cases gf with
      | none => simp [init_rnn_c, hu, Except.toOption]
      | some g =>
        cases hp : pyIndex s.rangf g with
        | error e => simp [init_rnn_c, hu, hp, Except.toOption]
        | ok idx =>
          cases hq : pyGet s.rangf_n_levels idx with
          | error e => simp [init_rnn_c, hu, hp, hq, Except.toOption]
          | ok nl => simp [init_rnn_c, hu, hp, hq, Except.toOption]
  have hH : ∀ c, (init_h_bias s gf).toOption.map (fun r => r.summary c)
      = (init_h_bias s gf).toOption.map (fun r => r.qDist.mean) := by
    intro c
    cases gf with
    | none => simp [init_h_bias, Except.toOption]
    | some g =>
      cases hp : pyIndex s.rangf g with
      | error e => simp [init_h_bias, hp, Except.toOption]
      | ok idx =>
        cases hq : pyGet s.rangf_n_levels idx with
        | error e => simp [init_h_bias, hp, hq, Except.toOption]
        | ok nl => simp [init_h_bias, hp, hq, Except.toOption]
  have hW : ∀ c, (init_irf_l1_biases s gf).toOption.map (fun p => (p.1.summary c, p.2.summary c))
      = (init_irf_l1_biases s gf).toOption.map (fun p => (p.1.qDist.mean, p.2.qDist.mean)) := by
    intro c
    cases gf with
    | none => simp [init_irf_l1_biases, Except.toOption]
    | some g =>
      cases hp : pyIndex s.rangf g with
      | error e => simp [init_irf_l1_biases, hp, Except.toOption]
      | ok idx =>
        cases hq : pyGet s.rangf_n_levels idx with
        | error e => simp [init_irf_l1_biases, hp, hq, Except.toOption]
        | ok nl => simp [init_irf_l1_biases, hp, hq, Except.toOption]
  have hSd : ∀ c, (init_output_model os).y_sd_summary c
      = (match (init_output_model os).y_sd_dist with
        | some d => os.cf (d.mean + os.y_sd_delta_ema) + os.epsilon
        | none => os.y_sd_init) := by
    intro c
    cases hA : os.asymmetric_error <;> cases hS : os.standardize_response <;>
      cases hT : os.y_sd_trainable <;>
        simp [init_output_model, hA, hS, hT, NormalQ.mean]
  have hSk : ∀ c, (init_output_model os).y_skewness_summary.map (fun f => f c)
      = (init_output_model os).y_skewness_dist.map (fun d => d.mean + os.y_skewness_delta_ema) := by
    intro c
    cases hA : os.asymmetric_error <;> cases hS : os.standardize_response <;>
      cases hT : os.y_sd_trainable <;>
        simp [init_output_model, hA, hS, hT, NormalQ.mean]
  have hTl : ∀ c, (init_output_model os).y_tailweight_summary.map (fun f => f c)
      = (init_output_model os).y_tailweight_dist.map (fun d => d.mean + os.y_tailweight_delta_ema) := by
    intro c
    cases hA : os.asymmetric_error <;> cases hS : os.standardize_response <;>
      cases hT : os.y_sd_trainable <;>
        simp [init_output_model, hA, hS, hT, NormalQ.mean]
  exact ⟨⟨hI b, (hI b).trans (hI b').symm⟩,
    ⟨hC b, (hC b).trans (hC b').symm⟩,
    ⟨hRH b, (hRH b).trans (hRH b').symm⟩,
    ⟨hRC b, (hRC b).trans (hRC b').symm⟩,
    ⟨hH b, (hH b).trans (hH b').symm⟩,
    ⟨hW b, (hW b).trans (hW b').symm⟩,
    ⟨hSd b, (hSd b).trans (hSd b').symm⟩,
    ⟨hSk b, (hSk b).trans (hSk b').symm⟩,
    ⟨hTl b, (hTl b).trans (hTl b').symm⟩⟩

/-- Multiplying a loss vector by its own 0/1 threshold mask zeroes the
entries at or above the cutoff. -/
theorem zipWith_mask (v : List ℚ) (c : ℚ) :
    List.zipWith (· * ·) v (v.map (fun x => if x < c then (1 : ℚ) else 0))
    = v.map (fun x => if x < c then x else 0) := by
  induction v with
  | nil => rfl
  | cons a t ih => by_cases h : a < c <;> simp [h, ih]

/-- The sum of a masked vector is the sum of the entries passing the
cutoff. -/
theorem map_ite_sum (v : List ℚ) (c : ℚ) :
    (v.map (fun x => if x < c then x else 0)).sum
    = (v.filter (fun x => x < c)).sum := by
  induction v with
  | nil => rfl
  | cons a t ih => by_cases h : a < c <;> simp [h, ih, List.filter_cons]

/-- The sum of the 0/1 mask is the number of entries passing the
cutoff. -/
theorem mask_count (v : List ℚ) (c : ℚ) :
    (v.map (fun x => if x < c then (1 : ℚ) else 0)).sum
    = ((v.filter (fun x => x < c)).length : ℚ) := by
  induction v with
  | nil => rfl
  | cons a t ih =>
    by_cases h : a < c <;> simp [h, ih, List.filter_cons, add_comm]

/-- C2 as claimed: after warm-up, each train step folds the
*unfiltered* batch statistics into the loss EMAs and reports the
dropped count. -/
def C2ClaimAt (s : ObjState) (v : List ℚ) : Prop :=
  ∀ d, run_train_step s v = Except.ok d →
    d.lossEmaNew = s.emaDecay * s.lossEma
        + (1 - s.emaDecay) * (v.sum / ((v.length : ℚ) + s.epsilon))
    ∧ d.lossSdEmaNew = s.emaDecay * s.lossSdEma
        + (1 - s.emaDecay)
          * (s.sqrtFn ((v.map (fun x => (x - s.lossEma) ^ 2)).sum) / ((v.length : ℚ) + s.epsilon))
    ∧ d.nDropped = some ((v.length : ℚ)
        - ((v.filter (fun x => x < s.lossEma + s.lossFilterNSds * s.lossSdEma)).length : ℚ))

/-- An objective state with the outlier filter enabled
(`n_sds = 2`, `decay = 9/10`, so warm-up is 20 steps), past warm-up at
step 21, with `loss_ema = 1` and `loss_sd_ema = 0`. -/
def C2state : ObjState :=
  { lossFilterNSds := 2
    emaDecay := 9 / 10
    epsilon := 0
    lossEma := 1
    lossSdEma := 0
    globalBatchStep := 21
    scaleLossWithData := false
    minibatchScale := 1
    regularizableLayers := []
    regularizerLosses := []
    klPenalties := []
    optimName := some "adam"
    sqrtFn := fun x => x
    nnPenalty := fun _ => 0 }

/-- C2 counterexample: on the batch `[0, 10]` past warm-up with cutoff
1, the code folds the *filtered* mean (0, giving a new EMA of 9/10)
into the loss EMA, not the unfiltered mean (5, which would give 7/5). -/
theorem C2_counterexample :
    lossFilterEnabled C2state = true
    ∧ ((C2state.globalBatchStep : ℤ) > pyInt (2 / (1 - C2state.emaDecay)))
    ∧ ¬ C2ClaimAt C2state [0, 10] := by
  have hrun : run_train_step C2state [0, 10] =
      Except.ok { nDropped := some 1, loss := 0, regLoss := 0,
                  lossEmaNew := 9 / 10, lossSdEmaNew := 1 / 5 } := by
    norm_num [run_train_step, init_objective, filterBlock, lossFilterEnabled, pyInt,
      C2state]
  refine ⟨by norm_num [lossFilterEnabled, C2state], by norm_num [pyInt, C2state], ?_⟩
  intro h
  have h2 := (h _ hrun).1
  norm_num [C2state] at h2

/-- C2 (amended): after warm-up, each train step folds the *filtered*
batch statistics into the loss EMAs — the mean over the retained
examples only, and the spread over the masked vector (dropped entries
zeroed) — and reports the count of dropped examples. -/
theorem C2_filtered_ema (s : ObjState) (v : List ℚ) (d : TrainDict)
    (hen : lossFilterEnabled s = true)
    (hwu : (s.globalBatchStep : ℤ) > pyInt (2 / (1 - s.emaDecay)))
    (hd : run_train_step s v = Except.ok d) :
    d.lossEmaNew = s.emaDecay * s.lossEma
        + (1 - s.emaDecay)
          * ((v.filter (fun x => x < s.lossEma + s.lossFilterNSds * s.lossSdEma)).sum
            / (((v.filter (fun x => x < s.lossEma + s.lossFilterNSds * s.lossSdEma)).length : ℚ)
              + s.epsilon))
    ∧ d.lossSdEmaNew = s.emaDecay * s.lossSdEma
        + (1 - s.emaDecay)
          * (s.sqrtFn ((v.map (fun x =>
                ((if x < s.lossEma + s.lossFilterNSds * s.lossSdEma then x else 0)
                  - s.lossEma) ^ 2)).sum)
            / (((v.filter (fun x => x < s.lossEma + s.lossFilterNSds * s.lossSdEma)).length : ℚ)
              + s.epsilon))
    ∧ d.nDropped = some ((v.length : ℚ)
        - ((v.filter (fun x => x < s.lossEma + s.lossFilterNSds * s.lossSdEma)).length : ℚ)) := by
  have hn : s.lossFilterNSds ≠ 0 := by
    have := hen
    simp only [lossFilterEnabled, Bool.and_eq_true, decide_eq_true_eq] at this
    exact this.1
  cases honm : s.optimName with
  | none => simp [run_train_step, init_objective, honm] at hd
  | some nm =>
    simp only [run_train_step, init_objective, honm, hen, if_true, ite_true,
      Except.ok.injEq] at hd
    subst hd
    simp only [filterBlock, if_pos hwu, if_pos hn, Option.map_some']
    refine ⟨?_, ?_, ?_⟩
    · rw [zipWith_mask, map_ite_sum, mask_count]
    · rw [zipWith_mask, mask_count, List.map_map]
      rfl
    · rw [mask_count]

/-- Witness for C2 on the batch `[0, 10]`. -/
theorem C2_filtered_ema_witness :
    lossFilterEnabled C2state = true
    ∧ ((C2state.globalBatchStep : ℤ) > pyInt (2 / (1 - C2state.emaDecay)))
    ∧ ∃ d, run_train_step C2state [0, 10] = Except.ok d
      ∧ (d.lossEmaNew = C2state.emaDecay * C2state.lossEma
          + (1 - C2state.emaDecay)
            * (([0, 10].filter (fun x =>
                x < C2state.lossEma + C2state.lossFilterNSds * C2state.lossSdEma)).sum
              / ((([0, 10].filter (fun x =>
                x < C2state.lossEma + C2state.lossFilterNSds * C2state.lossSdEma)).length : ℚ)
                + C2state.epsilon))
        ∧ d.lossSdEmaNew = C2state.emaDecay * C2state.lossSdEma
          + (1 - C2state.emaDecay)
            * (C2state.sqrtFn (([0, 10].map (fun x =>
                  ((if x < C2state.lossEma + C2state.lossFilterNSds * C2state.lossSdEma
                    then x else 0) - C2state.lossEma) ^ 2)).sum)
              / ((([0, 10].filter (fun x =>
                x < C2state.lossEma + C2state.lossFilterNSds * C2state.lossSdEma)).length : ℚ)
                + C2state.epsilon))
        ∧ d.nDropped = some ((([0, 10] : List ℚ).length : ℚ)
            - (([0, 10].filter (fun x =>
                x < C2state.lossEma + C2state.lossFilterNSds * C2state.lossSdEma)).length : ℚ))) := by
  have hrun : run_train_step C2state [0, 10] =
      Except.ok { nDropped := some 1, loss := 0, regLoss := 0,
                  lossEmaNew := 9 / 10, lossSdEmaNew := 1 / 5 } := by
    norm_num [run_train_step, init_objective, filterBlock, lossFilterEnabled, pyInt,
      C2state]
  exact ⟨by norm_num [lossFilterEnabled, C2state], by norm_num [pyInt, C2state],
    ⟨_, hrun, C2_filtered_ema C2state [0, 10] _
      (by norm_num [lossFilterEnabled, C2state]) (by norm_num [pyInt, C2state]) hrun⟩⟩

end CDR
